import Mathlib

/-!
Verification of the normalization layer of `src/dfs_scraper.py`
(name/team conversion, date disambiguation, salary decoding, and the
majority-vote team-convention detector).

Strings are modelled as `List Char` (Python `str` is a character
sequence).  Python functions that may raise are modelled with `Option`
result types: `none` stands for an exception escaping the function, or,
where the source catches the exception and returns Python `None`, for
that `None` value (each definition documents which).  The three regular
expressions of the source are modelled character by character with the
exact leftmost-match and greedy-with-backtracking semantics of
`re.findall(...)[0]`.
-/

/-- Numeric value of an ASCII digit character, as Python `int` applied to
a digit substring. -/
def digitVal (c : Char) : Nat := c.toNat - 48

/-- Python regex `\s` on ASCII input: space, tab, newline, carriage
return, vertical tab, form feed. -/
def pyIsSpace (c : Char) : Bool :=
  c == ' ' || c == '\t' || c == '\n' || c == '\r' || c == '\x0b' || c == '\x0c'

/-- Python `dict` lookup `table[k]`, modelled over an association list:
`some v` for a hit, `none` for a `KeyError`. -/
def dictGet {α : Type} : List (List Char × α) → List Char → Option α
  | [], _ => none
  | (k, v) :: rest, key => if k = key then some v else dictGet rest key

/-- The result of a successful `datetime.datetime(...)` construction. -/
structure PyDateTime where
  year : Int
  month : Nat
  day : Nat
  hour : Nat
  minute : Nat
deriving DecidableEq

/-- Leap-year test of the Gregorian calendar, as used by Python
`datetime` to validate the day of month. -/
def isLeapYear (y : Int) : Bool :=
  y % 4 == 0 && (y % 100 != 0 || y % 400 == 0)

/-- Number of days of month `m` of year `y` (Python `calendar` rules). -/
def daysInMonth (y : Int) (m : Nat) : Nat :=
  if m == 2 then (if isLeapYear y then 29 else 28)
  else if m == 4 || m == 6 || m == 9 || m == 11 then 30
  else 31

/-- `datetime.datetime(y, m, d, h, mi)`: `some` timestamp when every
field is in range, `none` for the `ValueError` the constructor raises
otherwise. -/
def mkDatetime (y : Int) (m d h mi : Nat) : Option PyDateTime :=
  if 1 ≤ y ∧ y ≤ 9999 ∧ 1 ≤ m ∧ m ≤ 12 ∧ 1 ≤ d ∧ d ≤ daysInMonth y m
      ∧ h ≤ 23 ∧ mi ≤ 59
  then some ⟨y, m, d, h, mi⟩ else none

/-- Modelled from the spec: `scrape.month_conversion` lives in
`dfs.scrape.utils`, which the source imports but which is not under src.
The spec fixes it as a 12-entry lookup table from month-name
abbreviation to month number; unknown abbreviations are a resolution
failure. -/
def month_conversion : List (List Char × Nat) :=
  [("Jan".data, 1), ("Feb".data, 2), ("Mar".data, 3), ("Apr".data, 4),
   ("May".data, 5), ("Jun".data, 6), ("Jul".data, 7), ("Aug".data, 8),
   ("Sep".data, 9), ("Oct".data, 10), ("Nov".data, 11), ("Dec".data, 12)]

namespace DailyNBALineups

/-- One attempt of the regex `\$(\d{1,2})\.(\d)K` anchored at the head
of the list, with the greedy `\d{1,2}` (two digits tried first, then a
backtrack to one).  Returns the two captured groups as numbers. -/
def salaryMatchAt : List Char → Option (Nat × Nat)
  | '$' :: c1 :: c2 :: c3 :: rest =>
    if c1.isDigit then
      if c2.isDigit then
        -- Greedy branch: two digits, then the tail must be . digit K.
        -- On failure the one-digit backtrack needs c2 = the dot, which a
        -- digit never is, so the whole position fails.
        match c3, rest with
        | '.', c4 :: 'K' :: _ =>
          if c4.isDigit then
            some (10 * digitVal c1 + digitVal c2, digitVal c4)
          else none
        | _, _ => none
      else
        -- One-digit branch: c2 must be the dot.
        if c2 == '.' && c3.isDigit then
          match rest with
          | 'K' :: _ => some (digitVal c1, digitVal c3)
          | _ => none
        else none
    else none
  | _ => none

/-- `re.findall(regexp, s)[0]`: the leftmost position at which the
salary pattern matches, `none` for the `IndexError` on an empty match
list. -/
def salaryFind : List Char → Option (Nat × Nat)
  | [] => none
  | c :: cs =>
    match salaryMatchAt (c :: cs) with
    | some r => some r
    | none => salaryFind cs

/-- `DailyNBALineups.convert_salary`: converts a salary string such as
the text form of 8.7 thousand dollars to the number 8700.  `none` models
the `IndexError` that escapes when the pattern does not match (the
caller catches it). -/
def convert_salary (s : List Char) : Option Nat :=
  match salaryFind s with
  | some (t, h) => some (t * 1000 + h * 100)
  | none => none

/-- `DailyNBALineups.convert_team`: dictionary lookup that catches the
`KeyError` and returns Python `None` (modelled `none`) on a miss. -/
def convert_team (conv : List (List Char × List Char)) (t : List Char) :
    Option (List Char) :=
  match dictGet conv t with
  | some code => some code
  | none => none

end DailyNBALineups

namespace RotoWorldInjuries

/-- Trailing group `(\d{1,2})` of the injuries date regex, greedy: two
digits are consumed when available, otherwise one. -/
def dayAt : List Char → Option Nat
  | c1 :: c2 :: _ =>
    if c1.isDigit then
      if c2.isDigit then some (10 * digitVal c1 + digitVal c2)
      else some (digitVal c1)
    else none
  | [c1] => if c1.isDigit then some (digitVal c1) else none
  | [] => none

/-- `\s?(\d{1,2})`: the optional whitespace is consumed greedily; when
the digits fail after it the engine backtracks to consuming nothing. -/
def wsDayAt : List Char → Option Nat
  | c :: rest =>
    if pyIsSpace c then
      match dayAt rest with
      | some d => some d
      | none => dayAt (c :: rest)
    else dayAt (c :: rest)
  | [] => none

/-- One attempt of the regex `([A-Z][a-z]{2,3})\s?(\d{1,2})` anchored at
the head of the list.  The abbreviation quantifier is greedy: three
lowercase letters are tried before the backtrack to two. -/
def dateMatchAt : List Char → Option (List Char × Nat)
  | c0 :: c1 :: c2 :: rest =>
    if c0.isUpper && c1.isLower && c2.isLower then
      match rest with
      | c3 :: rest2 =>
        if c3.isLower then
          match wsDayAt rest2 with
          | some d => some ([c0, c1, c2, c3], d)
          | none =>
            match wsDayAt (c3 :: rest2) with
            | some d => some ([c0, c1, c2], d)
            | none => none
        else
          match wsDayAt (c3 :: rest2) with
          | some d => some ([c0, c1, c2], d)
          | none => none
      | [] => none
    else none
  | _ => none

/-- `re.findall(regexp, date_str)[0]` for the injuries date regex:
leftmost match, `none` for the `IndexError` on no match. -/
def dateFind : List Char → Option (List Char × Nat)
  | [] => none
  | c :: cs =>
    match dateMatchAt (c :: cs) with
    | some r => some r
    | none => dateFind cs

/-- `RotoWorldInjuries.parse_date`.  `scrape.clean_html` comes from
`dfs.scrape.utils`, which is not under src, so it is passed in as a
function parameter; the concrete instances below use `id`.  The
reference moment (`self.year`, `self.month`, taken from the host clock
at construction) is likewise passed in.  Every exception of the body
(`IndexError` from the empty findall, `KeyError` from the month table,
`ValueError` from the datetime constructor) is caught by the bare
`except`, which returns Python `None`: all are modelled by `none`. -/
def parse_date (cleanHtml : List Char → List Char) (year : Int)
    (month : Nat) (dateStr : List Char) : Option PyDateTime :=
  let s := cleanHtml dateStr
  match dateFind s with
  | none => none
  | some (ab, day) =>
    match dictGet month_conversion ab with
    | none => none
    | some m =>
      let y := if month < m then year - 1 else year
      mkDatetime y m day 0 0

/-- `RotoWorldInjuries.convert_team`: on a `KeyError` the bare `except`
prints a warning and returns the raw team name unchanged (not Python
`None`). -/
def convert_team (conv : List (List Char × List Char)) (t : List Char) :
    Option (List Char) :=
  match dictGet conv t with
  | some code => some code
  | none => some t

end RotoWorldInjuries

namespace RotoWorldNews

/-- Tail `:(\d{2})\s(AM|PM)` of the news date regex, entered after the
hour digits: literal colon, exactly two minute digits, one whitespace,
then the meridiem marker.  Returns (minute, isPM). -/
def clockRestAt : List Char → Option (Nat × Bool)
  | ':' :: m1 :: m2 :: w :: a :: b :: _ =>
    if m1.isDigit && m2.isDigit && pyIsSpace w && b == 'M' then
      if a == 'P' then some (10 * digitVal m1 + digitVal m2, true)
      else if a == 'A' then some (10 * digitVal m1 + digitVal m2, false)
      else none
    else none
  | _ => none

/-- `(\d{1,2}):(\d{2})\s(AM|PM)`: greedy hour, two digits tried first
with a backtrack to one.  Returns (hour, minute, isPM). -/
def clockAt : List Char → Option (Nat × Nat × Bool)
  | c1 :: c2 :: rest =>
    if c1.isDigit then
      if c2.isDigit then
        match clockRestAt rest with
        | some (mn, pm) => some (10 * digitVal c1 + digitVal c2, mn, pm)
        | none =>
          match clockRestAt (c2 :: rest) with
          | some (mn, pm) => some (digitVal c1, mn, pm)
          | none => none
      else
        match clockRestAt (c2 :: rest) with
        | some (mn, pm) => some (digitVal c1, mn, pm)
        | none => none
    else none
  | _ => none

/-- `\s\-\s` separator between the day and the clock, then the clock. -/
def sepClockAt : List Char → Option (Nat × Nat × Bool)
  | w1 :: '-' :: w2 :: rest =>
    if pyIsSpace w1 && pyIsSpace w2 then clockAt rest else none
  | _ => none

/-- `(\d{1,2})\s\-\s...`: greedy day digits with backtracking, then the
separator and the clock.  Returns (day, hour, minute, isPM). -/
def daySepAt : List Char → Option (Nat × Nat × Nat × Bool)
  | c1 :: c2 :: rest =>
    if c1.isDigit then
      if c2.isDigit then
        match sepClockAt rest with
        | some (h, mn, pm) => some (10 * digitVal c1 + digitVal c2, h, mn, pm)
        | none =>
          match sepClockAt (c2 :: rest) with
          | some (h, mn, pm) => some (digitVal c1, h, mn, pm)
          | none => none
      else
        match sepClockAt (c2 :: rest) with
        | some (h, mn, pm) => some (digitVal c1, h, mn, pm)
        | none => none
    else none
  | _ => none

/-- The mandatory `\s` after the month abbreviation, then the rest. -/
def wsDaySepAt : List Char → Option (Nat × Nat × Nat × Bool)
  | w :: rest => if pyIsSpace w then daySepAt rest else none
  | [] => none

/-- One attempt of the news regex
`([A-Z][a-z]{2,3})\s(\d{1,2})\s\-\s(\d{1,2}):(\d{2})\s(AM|PM)` anchored
at the head of the list, with the greedy abbreviation quantifier (three
lowercase letters before the backtrack to two).  Returns
(abbreviation, day, hour, minute, isPM). -/
def newsMatchAt : List Char → Option (List Char × Nat × Nat × Nat × Bool)
  | c0 :: c1 :: c2 :: rest =>
    if c0.isUpper && c1.isLower && c2.isLower then
      match rest with
      | c3 :: rest2 =>
        if c3.isLower then
          match wsDaySepAt rest2 with
          | some (d, h, mn, pm) => some ([c0, c1, c2, c3], d, h, mn, pm)
          | none =>
            match wsDaySepAt (c3 :: rest2) with
            | some (d, h, mn, pm) => some ([c0, c1, c2], d, h, mn, pm)
            | none => none
        else
          match wsDaySepAt (c3 :: rest2) with
          | some (d, h, mn, pm) => some ([c0, c1, c2], d, h, mn, pm)
          | none => none
      | [] => none
    else none
  | _ => none

/-- `re.findall(regexp, date_str)[0]` for the news date regex. -/
def newsFind : List Char → Option (List Char × Nat × Nat × Nat × Bool)
  | [] => none
  | c :: cs =>
    match newsMatchAt (c :: cs) with
    | some r => some r
    | none => newsFind cs

/-- `RotoWorldNews.parse_date` (a static method: it carries no reference
moment).  The year passed to the datetime constructor is the literal
constant 2018.  The PM branch adds 12 to the parsed hour with no special
case for hour 12.  The bare `except` returns Python `None` on any
failure, modelled by `none`. -/
def parse_date (dateStr : List Char) : Option PyDateTime :=
  match newsFind dateStr with
  | none => none
  | some (ab, day, hour, minute, pm) =>
    match dictGet month_conversion ab with
    | none => none
    | some m =>
      let h := if pm then hour + 12 else hour
      mkDatetime 2018 m day h minute

/-- `RotoWorldNews.convert_team`: dictionary lookup that catches the
`KeyError` and returns Python `None` (modelled `none`) on a miss. -/
def convert_team (conv : List (List Char × List Char)) (t : List Char) :
    Option (List Char) :=
  match dictGet conv t with
  | some code => some code
  | none => none

end RotoWorldNews

namespace OddsShark

/-- The membership-counting loop of `teams_provided_in_short_name`: each
pair contributes one for the team and one for the opponent when the
label is a key of the conversion table. -/
def countShort (conv : List (List Char × List Char)) :
    List (List Char × List Char) → Nat
  | [] => 0
  | (team, opp) :: rest =>
    (if (dictGet conv team).isSome then 1 else 0) +
    (if (dictGet conv opp).isSome then 1 else 0) + countShort conv rest

/-- `OddsShark.teams_provided_in_short_name`: compares the fraction of
matching labels with one half.  The Python true division
`count_short / total_teams` is exact on these operands, so the float
comparison `> 0.5` is modelled by the exact `2 * count > total`; on an
empty batch the division raises `ZeroDivisionError`, modelled `none`. -/
def teams_provided_in_short_name (conv : List (List Char × List Char))
    (teams : List (List Char × List Char)) : Option Bool :=
  let total := teams.length * 2
  if total = 0 then none
  else some (decide (total < 2 * countShort conv teams))

end OddsShark

/-- Modelled from the spec: `dqc.NameConverter.clean` lives in
`dfs.db.qual_ctrl`, which the source imports but which is not under src.
Per spec section 4.1 the resolver normalizes the raw name and maps it
through an alias table; if no entry matches after normalization it falls
back to returning the normalized-but-unmapped string (recording the miss
in its diagnostic log, which this value-level model omits).  The
normalization step itself (whitespace, punctuation, diacritics, suffix
stripping) is kept abstract as a function parameter. -/
def nameConverterClean (normalize : List Char → List Char)
    (table : List (List Char × List Char)) (name : List Char) : List Char :=
  match dictGet table (normalize name) with
  | some canonical => canonical
  | none => normalize name

/-- Module-level `convert_name` of the source: calls the converter and
catches every exception, returning the raw input unchanged when the
converter fails.  The converter is a parameter returning `Option`;
`none` models an exception inside it. -/
def convert_name (cleanFn : List Char → Option (List Char))
    (name : List Char) : List Char :=
  match cleanFn name with
  | some cleaned => cleaned
  | none => name

/-! ## Helper lemmas -/

theorem mkDatetime_some {y : Int} {m d h mi : Nat} {dt : PyDateTime}
    (hs : mkDatetime y m d h mi = some dt) : dt = ⟨y, m, d, h, mi⟩ := by
  unfold mkDatetime at hs
  split at hs
  · injection hs with h2
    exact h2.symm
  · exact Option.noConfusion hs

theorem mkDatetime_hour24 (y : Int) (m d mi : Nat) :
    mkDatetime y m d 24 mi = none := by
  unfold mkDatetime
  rw [if_neg]
  intro hcon
  omega

theorem inj_parse_eq (clean : List Char → List Char) (y : Int) (mo : Nat)
    (s ab : List Char) (d m : Nat)
    (h1 : RotoWorldInjuries.dateFind (clean s) = some (ab, d))
    (h2 : dictGet month_conversion ab = some m) :
    RotoWorldInjuries.parse_date clean y mo s =
      mkDatetime (if mo < m then y - 1 else y) m d 0 0 := by
  simp only [RotoWorldInjuries.parse_date, h1, h2]

theorem news_parse_eq (s ab : List Char) (d h mn : Nat) (pm : Bool) (m : Nat)
    (h1 : RotoWorldNews.newsFind s = some (ab, d, h, mn, pm))
    (h2 : dictGet month_conversion ab = some m) :
    RotoWorldNews.parse_date s =
      mkDatetime 2018 m d (if pm then h + 12 else h) mn := by
  simp only [RotoWorldNews.parse_date, h1, h2]

/-! ## Claims -/

/-- Claim C1: for every date-only description parsed by
`RotoWorldInjuries.parse_date` whose extracted month abbreviation maps
to month `m`, with the reference moment (year, month) fixed at
construction, the resolved year is the previous year exactly when `m`
exceeds the reference month, and the reference year otherwise. -/
theorem c1_injuries_year_rollover (clean : List Char → List Char)
    (refYear : Int) (refMonth : Nat) (s ab : List Char) (d m : Nat)
    (dt : PyDateTime)
    (h1 : RotoWorldInjuries.dateFind (clean s) = some (ab, d))
    (h2 : dictGet month_conversion ab = some m)
    (h3 : RotoWorldInjuries.parse_date clean refYear refMonth s = some dt) :
    dt.year = if refMonth < m then refYear - 1 else refYear := by
  rw [inj_parse_eq clean refYear refMonth s ab d m h1 h2] at h3
  rw [mkDatetime_some h3]

/-- Witness for C1: with reference moment (2024, 3), the December
description resolves to year 2023 and the February one to year 2024. -/
theorem c1_witness :
    RotoWorldInjuries.parse_date id 2024 3 ("Dec 11".data) =
      some ⟨2023, 12, 11, 0, 0⟩ ∧
    (⟨2023, 12, 11, 0, 0⟩ : PyDateTime).year =
      (if 3 < 12 then (2024 : Int) - 1 else 2024) ∧
    RotoWorldInjuries.parse_date id 2024 3 ("Feb 11".data) =
      some ⟨2024, 2, 11, 0, 0⟩ ∧
    (⟨2024, 2, 11, 0, 0⟩ : PyDateTime).year =
      (if 3 < 2 then (2024 : Int) - 1 else 2024) :=
  ⟨by decide,
   c1_injuries_year_rollover id 2024 3 ("Dec 11".data) ("Dec".data) 11 12 _
     (by decide) (by decide) (by decide),
   by decide,
   c1_injuries_year_rollover id 2024 3 ("Feb 11".data) ("Feb".data) 11 2 _
     (by decide) (by decide) (by decide)⟩

/-- Counterexample to claim C2: `RotoWorldNews.parse_date` is a static
method with no reference moment and hardcodes year 2018.  For a
December description the backward-rollover rule at the reference
moment (2024, 3) used by the spec would give year 2023, but the code
yields 2018. -/
theorem c2_counterexample :
    RotoWorldNews.parse_date ("Dec 11 - 10:30 PM".data) =
      some ⟨2018, 12, 11, 22, 30⟩ ∧
    ¬ ((2018 : Int) = if (3 : Nat) < 12 then (2024 : Int) - 1 else 2024) := by
  decide

/-- Claim C2 as amended: the year of every timestamp resolved by
`RotoWorldNews.parse_date` is the hardcoded constant 2018, independent
of any reference moment; no backward-rollover rule is applied. -/
theorem c2_amended_year_constant (s : List Char) (dt : PyDateTime)
    (h : RotoWorldNews.parse_date s = some dt) : dt.year = 2018 := by
  unfold RotoWorldNews.parse_date at h
  cases hf : RotoWorldNews.newsFind s with
  | none => rw [hf] at h; exact Option.noConfusion h
  | some r =>
    obtain ⟨ab, d, hh, mn, pm⟩ := r
    rw [hf] at h
    simp only at h
    cases hl : dictGet month_conversion ab with
    | none => rw [hl] at h; exact Option.noConfusion h
    | some m =>
      rw [hl] at h
      simp only at h
      rw [mkDatetime_some h]

/-- Witness for the amended C2: a concrete date-with-time description
resolves with year 2018. -/
theorem c2_witness :
    RotoWorldNews.parse_date ("Feb 3 - 9:05 AM".data) =
      some ⟨2018, 2, 3, 9, 5⟩ ∧
    (⟨2018, 2, 3, 9, 5⟩ : PyDateTime).year = 2018 :=
  ⟨by decide,
   c2_amended_year_constant ("Feb 3 - 9:05 AM".data) _ (by decide)⟩

/-- Counterexample to claim C3: on a lookup miss
`RotoWorldInjuries.convert_team` returns the raw team label unchanged,
not the `None` sentinel. -/
theorem c3_counterexample :
    RotoWorldInjuries.convert_team
        [("Los Angeles Lakers".data, "LAL".data)] ("Gotham Knights".data) =
      some ("Gotham Knights".data) ∧
    RotoWorldInjuries.convert_team
        [("Los Angeles Lakers".data, "LAL".data)] ("Gotham Knights".data) ≠
      none := by
  decide

/-- Claim C3 as amended: for every raw team label missing from the
source convention lookup table, no conversion method raises;
`DailyNBALineups.convert_team` and `RotoWorldNews.convert_team` return
the `None` sentinel, while `RotoWorldInjuries.convert_team` returns the
raw label unchanged. -/
theorem c3_amended_lookup_miss (conv : List (List Char × List Char))
    (t : List Char) (h : dictGet conv t = none) :
    DailyNBALineups.convert_team conv t = none ∧
    RotoWorldNews.convert_team conv t = none ∧
    RotoWorldInjuries.convert_team conv t = some t := by
  unfold DailyNBALineups.convert_team RotoWorldNews.convert_team
    RotoWorldInjuries.convert_team
  rw [h]
  exact ⟨rfl, rfl, rfl⟩

/-- Witness for the amended C3 at a concrete table and label. -/
theorem c3_witness :
    DailyNBALineups.convert_team [("Lakers".data, "LAL".data)]
      ("Gotham".data) = none ∧
    RotoWorldNews.convert_team [("Lakers".data, "LAL".data)]
      ("Gotham".data) = none ∧
    RotoWorldInjuries.convert_team [("Lakers".data, "LAL".data)]
      ("Gotham".data) = some ("Gotham".data) :=
  c3_amended_lookup_miss [("Lakers".data, "LAL".data)] ("Gotham".data)
    (by decide)

/-- Digit character of a value below ten. -/
def digitChar : Nat → Char
  | 0 => '0' | 1 => '1' | 2 => '2' | 3 => '3' | 4 => '4'
  | 5 => '5' | 6 => '6' | 7 => '7' | 8 => '8' | _ => '9'

/-- Decimal digits of a number below one hundred, without leading
zero padding. -/
def natDigits2 (n : Nat) : List Char :=
  if n < 10 then [digitChar n] else [digitChar (n / 10), digitChar (n % 10)]

/-- The salary shorthand of the claimed pattern: currency marker, the
one-or-two digit integer part, decimal point, one fractional digit,
trailing thousands marker. -/
def mkSalaryStr (t h : Nat) : List Char :=
  '$' :: (natDigits2 t ++ ('.' :: digitChar h :: ['K']))

/-- Claim C4: for every salary shorthand with integer part `t` below one
hundred and fractional digit `h`, `convert_salary` returns exactly
`t * 1000 + h * 100`. -/
theorem c4_salary_decode (t h : Nat) (ht : t < 100) (hh : h < 10) :
    DailyNBALineups.convert_salary (mkSalaryStr t h) =
      some (t * 1000 + h * 100) := by
  have key : ∀ a : Fin 100, ∀ b : Fin 10,
      DailyNBALineups.convert_salary (mkSalaryStr a.val b.val) =
        some (a.val * 1000 + b.val * 100) := by decide
  exact key ⟨t, ht⟩ ⟨h, hh⟩

/-- Witness for C4: the two shorthand examples of the spec decode to
8700 and 10000. -/
theorem c4_witness :
    mkSalaryStr 8 7 = ("$8.7K".data) ∧
    DailyNBALineups.convert_salary (mkSalaryStr 8 7) =
      some (8 * 1000 + 7 * 100) ∧
    (8 * 1000 + 7 * 100 : Nat) = 8700 ∧
    mkSalaryStr 10 0 = ("$10.0K".data) ∧
    DailyNBALineups.convert_salary (mkSalaryStr 10 0) =
      some (10 * 1000 + 0 * 100) ∧
    (10 * 1000 + 0 * 100 : Nat) = 10000 :=
  ⟨by decide, c4_salary_decode 8 7 (by decide) (by decide), by decide,
   by decide, c4_salary_decode 10 0 (by decide) (by decide), by decide⟩

/-- Claim C5: for every date-with-time description, the hour handed to
the timestamp constructor is the parsed hour plus twelve when the
meridiem marker is PM and the parsed hour unchanged when it is AM, with
no special case for hour twelve; consequently every successfully
resolved timestamp carries exactly that hour. -/
theorem c5_pm_plus_twelve (s ab : List Char) (d h mn m : Nat) (pm : Bool)
    (h1 : RotoWorldNews.newsFind s = some (ab, d, h, mn, pm))
    (h2 : dictGet month_conversion ab = some m) :
    RotoWorldNews.parse_date s =
      mkDatetime 2018 m d (if pm then h + 12 else h) mn ∧
    ∀ dt : PyDateTime, RotoWorldNews.parse_date s = some dt →
      dt.hour = (if pm then h + 12 else h) := by
  refine ⟨news_parse_eq s ab d h mn pm m h1 h2, ?_⟩
  intro dt hdt
  rw [news_parse_eq s ab d h mn pm m h1 h2] at hdt
  rw [mkDatetime_some hdt]

/-- Witness for C5: a 10:30 PM description resolves to hour 22, and a
12:30 AM description resolves to hour 12 (no midnight correction). -/
theorem c5_witness :
    (RotoWorldNews.parse_date ("Dec 11 - 10:30 PM".data) =
        mkDatetime 2018 12 11 (if true then 10 + 12 else 10) 30 ∧
      ∀ dt : PyDateTime,
        RotoWorldNews.parse_date ("Dec 11 - 10:30 PM".data) = some dt →
          dt.hour = (if true then 10 + 12 else 10)) ∧
    RotoWorldNews.parse_date ("Dec 11 - 10:30 PM".data) =
      some ⟨2018, 12, 11, 22, 30⟩ ∧
    RotoWorldNews.parse_date ("Dec 11 - 12:30 AM".data) =
      some ⟨2018, 12, 11, 12, 30⟩ :=
  ⟨c5_pm_plus_twelve ("Dec 11 - 10:30 PM".data) ("Dec".data) 11 10 30 12 true
     (by decide) (by decide),
   by decide, by decide⟩

/-- Claim C6: whenever strictly more than half of the individual labels
of a batch of team-label pairs are keys of the conversion table,
`teams_provided_in_short_name` classifies the batch as short-name form,
returning `true`. -/
theorem c6_majority_vote (conv : List (List Char × List Char))
    (teams : List (List Char × List Char))
    (h : teams.length * 2 < 2 * OddsShark.countShort conv teams) :
    OddsShark.teams_provided_in_short_name conv teams = some true := by
  unfold OddsShark.teams_provided_in_short_name
  cases teams with
  | nil => simp [OddsShark.countShort] at h
  | cons p rest =>
    rw [if_neg (by simp)]
    exact congrArg some (decide_eq_true h)

/-- Witness for C6: the batch of four labels of which three are table
keys is classified as short-name form. -/
theorem c6_witness :
    OddsShark.countShort
        [("A".data, "a".data), ("B".data, "b".data), ("C".data, "c".data)]
        [("A".data, "B".data), ("C".data, "X".data)] = 3 ∧
    ([("A".data, "B".data), ("C".data, "X".data)] :
        List (List Char × List Char)).length * 2 = 4 ∧
    OddsShark.teams_provided_in_short_name
        [("A".data, "a".data), ("B".data, "b".data), ("C".data, "c".data)]
        [("A".data, "B".data), ("C".data, "X".data)] = some true :=
  ⟨by decide, by decide,
   c6_majority_vote
     [("A".data, "a".data), ("B".data, "b".data), ("C".data, "c".data)]
     [("A".data, "B".data), ("C".data, "X".data)] (by decide)⟩

/-- Claim C7: `convert_name` is total.  With the spec-modelled converter
it returns the normalized-but-unmapped form of the input whenever the
alias lookup after normalization misses; and even when the converter
raises, the except branch still returns a string, namely the raw
input. -/
theorem c7_name_fallback (normalize : List Char → List Char)
    (table : List (List Char × List Char))
    (cleanFn : List Char → Option (List Char)) (name : List Char)
    (h1 : dictGet table (normalize name) = none)
    (h2 : cleanFn name = none) :
    convert_name (fun n => some (nameConverterClean normalize table n))
      name = normalize name ∧
    convert_name cleanFn name = name := by
  constructor
  · simp only [convert_name, nameConverterClean, h1]
  · unfold convert_name
    rw [h2]

/-- Witness for C7 with the identity normalization, the empty alias
table, and a converter that always raises. -/
theorem c7_witness :
    convert_name (fun n => some (nameConverterClean id [] n))
      ("Zz Top Jr".data) = ("Zz Top Jr".data) ∧
    convert_name (fun _ => none) ("Zz Top Jr".data) = ("Zz Top Jr".data) :=
  c7_name_fallback id [] (fun _ => none) ("Zz Top Jr".data) (by decide) rfl

/-- Claim C8: for every input string in which no position matches the
salary pattern, `convert_salary` yields the explicit failure value, not
a silent zero or any other number. -/
theorem c8_salary_garbage_fails (s : List Char)
    (h : ∀ l ∈ s.tails, DailyNBALineups.salaryMatchAt l = none) :
    DailyNBALineups.convert_salary s = none := by
  have hfind : DailyNBALineups.salaryFind s = none := by
    induction s with
    | nil => rfl
    | cons c cs ih =>
      unfold DailyNBALineups.salaryFind
      rw [h (c :: cs) (by rw [List.tails_cons]; exact List.mem_cons_self _ _)]
      exact ih fun l hl =>
        h l (by rw [List.tails_cons]; exact List.mem_cons_of_mem _ hl)
  unfold DailyNBALineups.convert_salary
  rw [hfind]

/-- Witness for C8: the garbage example of the spec decodes to the
failure value. -/
theorem c8_witness : DailyNBALineups.convert_salary ("garbage".data) = none :=
  c8_salary_garbage_fails ("garbage".data) (by decide)

/-- Claim C9: `teams_provided_in_short_name` returns a boolean for every
non-empty batch, but fails on the empty batch, where the total label
count is zero and the Python division raises. -/
theorem c9_empty_batch (conv : List (List Char × List Char))
    (teams : List (List Char × List Char)) (h : teams ≠ []) :
    (∃ b : Bool, OddsShark.teams_provided_in_short_name conv teams = some b) ∧
    OddsShark.teams_provided_in_short_name conv [] = none := by
  constructor
  · cases teams with
    | nil => exact absurd rfl h
    | cons p rest =>
      refine ⟨decide ((p :: rest).length * 2 <
        2 * OddsShark.countShort conv (p :: rest)), ?_⟩
      unfold OddsShark.teams_provided_in_short_name
      rw [if_neg (by simp)]
  · rfl

/-- Witness for C9 at a concrete one-pair batch. -/
theorem c9_witness :
    (∃ b : Bool, OddsShark.teams_provided_in_short_name []
        [("A".data, "B".data)] = some b) ∧
    OddsShark.teams_provided_in_short_name
      ([] : List (List Char × List Char)) [] = none :=
  c9_empty_batch [] [("A".data, "B".data)] (by decide)

/-- Claim C10: for every date-with-time description whose parsed hour is
twelve with a PM marker, the unconditional addition of twelve produces
hour twenty-four, the timestamp constructor rejects it, and
`RotoWorldNews.parse_date` returns the `None` failure value with no
exception escaping. -/
theorem c10_noon_pm_fails (s ab : List Char) (d mn m : Nat)
    (h1 : RotoWorldNews.newsFind s = some (ab, d, 12, mn, true))
    (h2 : dictGet month_conversion ab = some m) :
    RotoWorldNews.parse_date s = none := by
  rw [news_parse_eq s ab d 12 mn true m h1 h2]
  exact mkDatetime_hour24 2018 m d mn

/-- Witness for C10: the 12:30 PM description fails while its 12:30 AM
counterpart succeeds, isolating the failure to the PM conversion. -/
theorem c10_witness :
    RotoWorldNews.parse_date ("Dec 11 - 12:30 PM".data) = none ∧
    RotoWorldNews.parse_date ("Dec 11 - 12:30 AM".data) =
      some ⟨2018, 12, 11, 12, 30⟩ :=
  ⟨c10_noon_pm_fails ("Dec 11 - 12:30 PM".data) ("Dec".data) 11 30 12
     (by decide) (by decide),
   by decide⟩
